import Mathlib

/-! Verification of the session/cart coordination engine of the agnt-certo
repository against its natural-language specification.

The definitions below are a shallow embedding of the Python source:

* `src/tools/redis_tools.py` — message buffer, order session state machine,
  cart store (with merge-on-duplicate and resync-on-sent), circuit breaker;
* `src/agent_multiagent.py` — responder nodes with hallucination detection
  and bounded retry, plus the per-customer lock around `run_agent_langgraph`;
* `src/server.py` — the webhook's buffer/scheduling step.

The Redis store is modelled per customer as explicit state records; store
availability and well-formed JSON payloads are assumed (every claim under
verification speaks about behaviour on the available-store path).  Redis TTLs
matter only for the circuit breaker, where keys carry an explicit absolute
expiry and a key is alive at instant `now` iff `now < expiry`.  Python floats
(quantities, prices) are modelled as rationals; Python strings as Lean
strings, with character-level helpers mirroring `str.lower`, `str.strip` and
the `in` substring test on the ASCII fragment actually used by the source. -/

namespace AgntCerto

/-! ## String helpers (Python `lower`, `strip`, `in`, `startswith`) -/

/-- Python `str.strip()` on both ends (ASCII whitespace). -/
def trimChars (l : List Char) : List Char :=
  ((l.dropWhile Char.isWhitespace).reverse.dropWhile Char.isWhitespace).reverse

/-- Python `str.lower()` (ASCII case folding). -/
def lowerChars (l : List Char) : List Char :=
  l.map Char.toLower

/-- Python `needle in hay` substring test, on exploded strings. -/
def listContainsSub : List Char → List Char → Bool
  | [], needle => needle.isEmpty
  | c :: cs, needle => needle.isPrefixOf (c :: cs) || listContainsSub cs needle

/-- Python `needle in hay` on `String`. -/
def strContains (hay needle : String) : Bool :=
  listContainsSub hay.data needle.data

/-- `produto.strip().lower()` — the normalized product name used for
deduplication in `add_item_to_cart`. -/
def normName (s : String) : List Char :=
  lowerChars (trimChars s.data)

/-! ## Data model: session, cart item, per-customer coordination state -/

/-- `order_session.status`: `building` (montando) or `sent` (enviado). -/
inductive SessStatus where
  | building
  | sent
deriving DecidableEq

/-- The per-customer order session record stored under `order_session:{tel}`
(brace-free rendering of the Redis key family).  Timestamps are abstract
instants. -/
structure Session where
  status : SessStatus
  startedAt : Option Nat
  sentAt : Option Nat
  orderId : Option String
deriving DecidableEq

/-- One cart line item, the parsed form of the JSON dict handled by
`add_item_to_cart`: fields `produto`, `quantidade`, `unidades` (present only
for weight-based items), `preco`, `observacao` (defaulting to the empty
string). -/
structure CartItem where
  produto : String
  quantidade : ℚ
  unidades : Option Int
  preco : Option ℚ
  observacao : String
deriving DecidableEq

/-- The coordination state of one customer: session key, cart list,
pending PIX receipt URL, and the 2-hour `order_completed` marker. -/
structure CustState where
  session : Option Session
  cart : List CartItem
  comprovante : Option String
  completed : Bool
deriving DecidableEq

/-- `start_order_session`: a fresh `building` session started at `now`. -/
def freshSession (now : Nat) : Session :=
  { status := SessStatus.building, startedAt := some now,
    sentAt := none, orderId := none }

/-! ## Cart store (`add_item_to_cart`, `get_cart_items`,
`remove_item_from_cart`, `clear_cart`) -/

/-- The deduplication scan of `add_item_to_cart`: index of the first cart
item whose normalized name equals the (already normalized) new name. -/
def findMatchIdx (cart : List CartItem) (newName : List Char) : Option Nat :=
  cart.findIdx? (fun item => normName item.produto == newName)

/-- The merge branch of `add_item_to_cart`: sums `quantidade`; sums
`unidades` only when both items carry the field; overwrites `preco` with the
new one when supplied (falling back to the existing one); concatenates the
new `observacao` onto the old one, space-separated and stripped, only when
the new note is non-empty and not already a substring of the old note. -/
def mergeItems (existing newItem : CartItem) : CartItem :=
  { produto := existing.produto
    quantidade := existing.quantidade + newItem.quantidade
    unidades :=
      match existing.unidades, newItem.unidades with
      | some a, some b => some (a + b)
      | _, _ => existing.unidades
    preco :=
      match newItem.preco with
      | some p => some p
      | none => existing.preco
    observacao :=
      if newItem.observacao ≠ "" ∧ strContains existing.observacao newItem.observacao = false then
        String.mk (trimChars (existing.observacao ++ " " ++ newItem.observacao).data)
      else existing.observacao }

/-- The `LSET` at `found_index`: replace the item at position `i` with the
merge of that item and the incoming one, leaving the rest of the list as is. -/
def mergeIntoCart : List CartItem → Nat → CartItem → List CartItem
  | [], _, _ => []
  | x :: xs, 0, n => mergeItems x n :: xs
  | x :: xs, Nat.succ i, n => x :: mergeIntoCart xs i n

/-- Result of a cart mutation: the post-mutation customer state, the boolean
returned to the tool layer, and the list of `overwrite_order` payloads issued
to the external order API during the call (each payload is the full cart the
call carried). -/
structure CartOpResult where
  state : CustState
  ok : Bool
  overwriteCalls : List (List CartItem)
deriving DecidableEq

/-- `add_item_to_cart` on the available-store path with a well-formed item.
Reads the session first; if it is not in `building` it starts a fresh one
(`start_order_session`).  Then merges into the first name match or appends.
Finally, if the session read at entry was `sent`, issues one
`overwrite_order` call whose payload is the full cart re-read after the
mutation.  The outcome of that call (`_apiOk`) is only logged by the source
(exceptions are swallowed), so it influences nothing here, and the function
returns `True`. -/
def addItemToCart (st : CustState) (now : Nat) (newItem : CartItem) (_apiOk : Bool) :
    CartOpResult :=
  let sessionBefore := st.session
  let session1 : Option Session :=
    if sessionBefore.map Session.status = some SessStatus.building then sessionBefore
    else some (freshSession now)
  let newCart : List CartItem :=
    match findMatchIdx st.cart (normName newItem.produto) with
    | some i => mergeIntoCart st.cart i newItem
    | none => st.cart ++ [newItem]
  let calls : List (List CartItem) :=
    if sessionBefore.map Session.status = some SessStatus.sent then [newCart] else []
  { state := { st with session := session1, cart := newCart },
    ok := true,
    overwriteCalls := calls }

/-- `remove_item_from_cart` (0-based Python `int` index).  In range: marks
slot `index` and removes it (modelled as `eraseIdx`; genuine items can never
equal the deletion marker because they parsed as JSON objects), then, if the
session is `sent`, issues one `overwrite_order` call with the full cart
re-read after the removal (`_apiOk` again only logged); returns `True`.
Out of range: returns `False` and changes nothing. -/
def removeItemFromCart (st : CustState) (index : Int) (_apiOk : Bool) : CartOpResult :=
  if 0 ≤ index ∧ index < (st.cart.length : Int) then
    let newCart := st.cart.eraseIdx index.toNat
    let calls : List (List CartItem) :=
      if st.session.map Session.status = some SessStatus.sent then [newCart] else []
    { state := { st with cart := newCart }, ok := true, overwriteCalls := calls }
  else
    { state := st, ok := false, overwriteCalls := [] }

/-- `clear_cart`: deletes the cart list. -/
def clearCart (st : CustState) : CustState :=
  { st with cart := [] }

/-! ## `get_order_context` (greeting detection and session reopening) -/

/-- The fixed greeting vocabulary of `get_order_context`. -/
def saudacoes : List String :=
  ["boa tarde", "boa noite", "bom dia", "boa", "olá", "ola", "oi",
   "eae", "eai", "e ai", "oii", "oiee", "hello", "hi", "hey",
   "opa", "opaa", "fala", "salve", "blz", "beleza"]

/-- `is_greeting`: the stripped, lowered message starts with (or equals) one
of the fixed greetings. -/
def isGreeting (mensagem : String) : Bool :=
  let m := lowerChars (trimChars mensagem.data)
  saudacoes.any (fun s => s.data.isPrefixOf m || m == s.data)

/-- Result of `get_order_context`: the updated customer state and the
context string injected into the agent. -/
structure ContextResult where
  state : CustState
  context : String
deriving DecidableEq

/-- `get_order_context`.  No session: start a fresh one, consume the
completion marker, and report either a returning or a brand-new customer.
`building`: renew the TTL (not modelled) and inject nothing.  `sent`: a
greeting message clears the session and the cart and starts a new `building`
session (the pending receipt is not touched); otherwise point the agent at
`alterar_tool`. -/
def getOrderContext (st : CustState) (now : Nat) (mensagem : String) : ContextResult :=
  match st.session with
  | none =>
    let st1 := { st with session := some (freshSession now), completed := false }
    if st.completed then
      { state := st1,
        context := "[SESSÃO] Novo pedido iniciado. Cliente já fez pedido anteriormente." }
    else
      { state := st1, context := "[SESSÃO] Nova conversa. Monte o pedido normalmente." }
  | some s =>
    match s.status with
    | SessStatus.building => { state := st, context := "" }
    | SessStatus.sent =>
      if isGreeting mensagem then
        { state := { st with session := some (freshSession now), cart := [] },
          context := "[SESSÃO] Novo pedido iniciado. Cliente iniciou nova conversa com saudação." }
      else
        { state := st,
          context := "[SESSÃO] Pedido já enviado. Se cliente quiser adicionar algo, use alterar_tool." }

/-! ## Circuit breaker (`check_circuit_open`, `report_failure`,
`report_success`)

State per service: the `circuit:failures` counter with its absolute expiry
instant, and the `circuit:open` flag with its absolute expiry instant.  A key
is alive at `now` iff `now < expiry`. -/

structure CircuitState where
  failures : Option (Nat × Nat)
  openUntil : Option Nat
deriving DecidableEq

/-- `check_circuit_open`: open iff the `circuit:open` key is (still) alive;
the failure counter is never consulted. -/
def checkCircuitOpen (st : CircuitState) (now : Nat) : Bool :=
  match st.openUntil with
  | some e => decide (now < e)
  | none => false

/-- `report_failure`: `INCR` the counter (an expired key restarts at 1); the
first failure in a window sets a fixed 60 s TTL on the counter.  On reaching
`threshold` the `circuit:open` flag is set for `cooldown` seconds and the
counter key is deleted. -/
def reportFailure (st : CircuitState) (now threshold cooldown : Nat) : CircuitState :=
  let failures1 : Nat × Nat :=
    match st.failures with
    | some (c, e) => if now < e then (c + 1, e) else (1, now + 60)
    | none => (1, now + 60)
  if threshold ≤ failures1.1 then
    { failures := none, openUntil := some (now + cooldown) }
  else
    { failures := some failures1, openUntil := st.openUntil }

/-- `report_success`: if the failure counter key exists, delete it; the open
flag is never touched. -/
def reportSuccess (st : CircuitState) (now : Nat) : CircuitState :=
  match st.failures with
  | some (_, e) => if now < e then { st with failures := none } else st
  | none => st

/-- A sequence of `report_failure` calls at the given instants. -/
def reportFailures (ts : List Nat) (threshold cooldown : Nat) (st : CircuitState) :
    CircuitState :=
  ts.foldl (fun s t => reportFailure s t threshold cooldown) st

/-- The observable failure count at an instant (0 once the key expired). -/
def failCount (st : CircuitState) (now : Nat) : Nat :=
  match st.failures with
  | some (c, e) => if now < e then c else 0
  | none => 0

/-! ## Message buffer (`push_message_to_buffer`) and the webhook step -/

/-- One buffered fragment: text plus the provider message id. -/
structure Fragment where
  text : String
  mid : Option String
deriving DecidableEq

/-- `push_message_to_buffer` on the Redis path: `RPUSH` the payload and
return `True`; on a Redis error nothing is appended and `False` is returned.
The return value does not depend on whether the buffer was empty. -/
def pushMessageToBuffer (buf : List Fragment) (frag : Fragment) (redisOk : Bool) :
    List Fragment × Bool :=
  if redisOk then (buf ++ [frag], true) else (buf, false)

/-- One webhook delivery step (server.py): buffer after the push, the
in-process `buffer_sessions` flag after the step, whether a consolidation job
was enqueued, and whether the message was enqueued directly instead. -/
structure WebhookStep where
  buffer : List Fragment
  bufferSessionFlag : Bool
  scheduledConsolidation : Bool
  enqueuedDirect : Bool
deriving DecidableEq

/-- The webhook's buffering branch: push the fragment; if the push succeeded,
enqueue a consolidation job only when no `buffer_sessions` flag is set for the
customer (and set the flag); if the push failed, enqueue the single message
directly. -/
def webhookBufferStep (buf : List Fragment) (flag : Bool) (frag : Fragment)
    (redisOk : Bool) : WebhookStep :=
  let p := pushMessageToBuffer buf frag redisOk
  if p.2 then
    if flag then
      { buffer := p.1, bufferSessionFlag := flag,
        scheduledConsolidation := false, enqueuedDirect := false }
    else
      { buffer := p.1, bufferSessionFlag := true,
        scheduledConsolidation := true, enqueuedDirect := false }
  else
    { buffer := p.1, bufferSessionFlag := flag,
      scheduledConsolidation := false, enqueuedDirect := true }

/-! ## Responder nodes with hallucination detection (`vendedor_node`,
`caixa_node`) -/

/-- One responder execution: the extracted final response text and the set of
tool names actually called during that execution. -/
structure AgentAttempt where
  response : String
  toolsCalled : List String
deriving DecidableEq

/-- `_check_hallucination` of `vendedor_node`: flags a response that says
"adicionei"/"adicionado" without an `add_item_tool` call, or "encontrei"
without `busca_analista` or `get_pending_suggestions_tool`. -/
def checkHallucination (a : AgentAttempt) : Bool :=
  let r := lowerChars a.response.data
  let claimsAdd := listContainsSub r "adicionei".data || listContainsSub r "adicionado".data
  let detect1 := claimsAdd && !(a.toolsCalled.contains "add_item_tool")
  let detect2 := listContainsSub r "encontrei".data
      && !(a.toolsCalled.contains "busca_analista")
      && !(a.toolsCalled.contains "get_pending_suggestions_tool")
  detect1 || detect2

/-- The fixed fallback text of `vendedor_node`. -/
def vendedorFallback : String :=
  "Desculpe, tive um problema técnico. Pode me dizer novamente o que você gostaria?"

/-- Outcome of a responder node: the final response and how many times the
responder was invoked. -/
structure NodeOutcome where
  finalResponse : String
  invocations : Nat
deriving DecidableEq

/-- `vendedor_node`: keep the first attempt if unflagged; otherwise invoke
the responder once more and keep that answer only when it is unflagged and
non-empty; otherwise substitute the fixed fallback.  At most two
invocations ever happen. -/
def vendedorNode (attempt1 attempt2 : AgentAttempt) : NodeOutcome :=
  if checkHallucination attempt1 = false then
    { finalResponse := attempt1.response, invocations := 1 }
  else if checkHallucination attempt2 = false ∧ attempt2.response ≠ "" then
    { finalResponse := attempt2.response, invocations := 2 }
  else
    { finalResponse := vendedorFallback, invocations := 2 }

/-- The confirmation keywords of `_check_cashier_hallucination`. -/
def caixaConfirmWords : List String :=
  ["pedido confirmado", "pedido enviado", "pedido finalizado", "✅ pedido"]

/-- Character class of the regex fragment `[:\s]`. -/
def colonOrSpace (c : Char) : Bool :=
  c == ':' || c.isWhitespace

/-- Whether the regex `total[:\s]*r\$\s*\d+` matches at the head of `l`.
Greedy skipping is sound here because the skipped classes cannot start the
following literal. -/
def matchesTotalAt (l : List Char) : Bool :=
  if ("total".data).isPrefixOf l then
    match (l.drop 5).dropWhile colonOrSpace with
    | 'r' :: '$' :: r2 =>
      match r2.dropWhile Char.isWhitespace with
      | c :: _ => c.isDigit
      | [] => false
    | _ => false
  else false

/-- `re.search` of `total[:\s]*r\$\s*\d+`: match at any position. -/
def hasTotalPattern : List Char → Bool
  | [] => false
  | c :: cs => matchesTotalAt (c :: cs) || hasTotalPattern cs

/-- `_check_cashier_hallucination` of `caixa_node`: flags a confirmation
keyword without `finalizar_pedido_tool`, or a mentioned total without
`calcular_total_tool` or `finalizar_pedido_tool`. -/
def checkCaixaHallucination (a : AgentAttempt) : Bool :=
  let r := lowerChars a.response.data
  let detect1 := (caixaConfirmWords.any fun w => listContainsSub r w.data)
      && !(a.toolsCalled.contains "finalizar_pedido_tool")
  let detect2 := hasTotalPattern r
      && !(a.toolsCalled.contains "calcular_total_tool")
      && !(a.toolsCalled.contains "finalizar_pedido_tool")
  detect1 || detect2

/-- The fixed fallback text of `caixa_node`. -/
def caixaFallback : String :=
  "Desculpe, tive um problema ao processar. Vou verificar seu pedido novamente..."

/-- `caixa_node`, same retry shape as `vendedor_node` with the cashier
verifier and fallback. -/
def caixaNode (attempt1 attempt2 : AgentAttempt) : NodeOutcome :=
  if checkCaixaHallucination attempt1 = false then
    { finalResponse := attempt1.response, invocations := 1 }
  else if checkCaixaHallucination attempt2 = false ∧ attempt2.response ≠ "" then
    { finalResponse := attempt2.response, invocations := 2 }
  else
    { finalResponse := caixaFallback, invocations := 2 }

/-! ## Per-customer execution lock and the busy path of
`run_agent_langgraph` -/

/-- Modelled from the spec: `acquire_agent_lock` is imported by
`agent_multiagent.py` from `tools.redis_tools` but its definition is not in
the source tree.  Per the spec it is non-blocking and single-attempt: it
returns a fresh token when the lock is free and nil immediately when it is
already held.  Returns (lock state after, token or nil). -/
def acquireAgentLock (held : Option String) (freshToken : String) :
    Option String × Option String :=
  match held with
  | some t => (some t, none)
  | none => (some freshToken, some freshToken)

/-- Modelled from the spec: `release_agent_lock` is likewise absent from the
source tree.  Per the spec it releases only when the supplied token matches
the current holder and is a no-op otherwise. -/
def releaseAgentLock (held : Option String) (token : String) : Option String :=
  if held = some token then none else held

/-- The fixed busy response of `run_agent_langgraph`. -/
def busyMessage : String :=
  "Estou finalizando sua última solicitação. Me manda só um instante e eu já te respondo."

/-- Result of one `run_agent_langgraph` call: the returned output and error
fields, and whether the turn was actually processed. -/
structure AgentRunResult where
  output : String
  error : Option String
  processedTurn : Bool
deriving DecidableEq

/-- The lock discipline of `run_agent_langgraph` (source lines 954-1085):
attempt the lock once; on nil return the fixed busy response with error
`busy` without processing; otherwise process the turn and release the lock
in the `finally` block.  Returns (call result, lock state after). -/
def runAgentLanggraph (held : Option String) (freshToken : String) (turnOutput : String) :
    AgentRunResult × Option String :=
  match acquireAgentLock held freshToken with
  | (st, none) =>
    ({ output := busyMessage, error := some "busy", processedTurn := false }, st)
  | (st, some tok) =>
    ({ output := turnOutput, error := none, processedTurn := true },
     releaseAgentLock st tok)

/-! ## Sample data used by witnesses and counterexamples -/

/-- A sample cart item. -/
def itemArroz : CartItem :=
  { produto := "Arroz", quantidade := 2, unidades := none,
    preco := some 10, observacao := "" }

/-- A second sample cart item with a different product name. -/
def itemFeijao : CartItem :=
  { produto := "Feijão", quantidade := 1, unidades := some 1,
    preco := some 8, observacao := "tipo 1" }

/-- A third sample cart item. -/
def itemCafe : CartItem :=
  { produto := "Café", quantidade := 1, unidades := none,
    preco := none, observacao := "" }

/-- A re-add of "Arroz" (different spelling, new price, new note) used to
exercise the merge branch. -/
def itemArrozNovo : CartItem :=
  { produto := "  ARROZ ", quantidade := 3, unidades := none,
    preco := some 12, observacao := "sem sal" }

/-- The empty initial customer state. -/
def stEmpty : CustState :=
  { session := none, cart := [], comprovante := none, completed := false }

/-- A customer state whose order session is already `sent`. -/
def stSent : CustState :=
  { session := some { status := SessStatus.sent, startedAt := some 0,
                      sentAt := some 10, orderId := some "42" },
    cart := [itemArroz, itemFeijao, itemCafe],
    comprovante := some "https://files.example/comp.jpg",
    completed := true }

/-! ## C7 / C10: removal by index -/

/-- C7: for every cart of size n and every valid index i with 0 ≤ i < n,
`remove_item_from_cart` returns true and yields a cart of size n-1 whose
remaining items appear in the original order with element i excluded. -/
theorem remove_valid_index (st : CustState) (i : Int) (ok : Bool)
    (h0 : 0 ≤ i) (hn : i < (st.cart.length : Int)) :
    (removeItemFromCart st i ok).ok = true ∧
    (removeItemFromCart st i ok).state.cart
      = st.cart.take i.toNat ++ st.cart.drop (i.toNat + 1) ∧
    (removeItemFromCart st i ok).state.cart.length = st.cart.length - 1 := by
  have hlt : i.toNat < st.cart.length := by omega
  simp [removeItemFromCart, h0, hn, List.eraseIdx_eq_take_drop_succ,
    List.length_eraseIdx, hlt]
  omega

/-- Witness for C7 at a concrete state and index. -/
theorem remove_valid_index_witness :
    (0 : Int) ≤ 1 ∧ (1 : Int) < (stSent.cart.length : Int) ∧
    ((removeItemFromCart stSent 1 true).ok = true ∧
     (removeItemFromCart stSent 1 true).state.cart
       = stSent.cart.take 1 ++ stSent.cart.drop 2 ∧
     (removeItemFromCart stSent 1 true).state.cart.length = stSent.cart.length - 1) :=
  ⟨by decide, by decide, remove_valid_index stSent 1 true (by decide) (by decide)⟩

/-- C10: for every cart of size n and every out-of-range index i,
`remove_item_from_cart` returns false, the cart is unchanged, and no
external overwrite call is issued. -/
theorem remove_invalid_index (st : CustState) (i : Int) (ok : Bool)
    (h : i < 0 ∨ (st.cart.length : Int) ≤ i) :
    removeItemFromCart st i ok
      = { state := st, ok := false, overwriteCalls := [] } := by
  have hcond : ¬(0 ≤ i ∧ i < (st.cart.length : Int)) := by omega
  simp [removeItemFromCart, hcond]

/-- Witness for C10 at a concrete state and out-of-range index. -/
theorem remove_invalid_index_witness :
    ((5 : Int) < 0 ∨ (stSent.cart.length : Int) ≤ 5) ∧
    removeItemFromCart stSent 5 true
      = { state := stSent, ok := false, overwriteCalls := [] } :=
  ⟨by decide, remove_invalid_index stSent 5 true (by decide)⟩

/-! ## C9: per-customer execution lock and the busy path -/

/-- C9: lock acquisition is non-blocking and single-attempt: when the lock
is held, acquisition returns nil and leaves the holder in place;
`run_agent_langgraph` then immediately returns the fixed busy response with
error `busy` without processing the turn; release with a non-matching token
is a no-op and does not unlock the current holder. -/
theorem lock_busy_and_release (t freshToken tok turnOutput : String)
    (held : Option String) (hmismatch : held ≠ some tok) :
    acquireAgentLock (some t) freshToken = (some t, none) ∧
    releaseAgentLock held tok = held ∧
    runAgentLanggraph (some t) freshToken turnOutput
      = ({ output := busyMessage, error := some "busy", processedTurn := false },
         some t) := by
  refine ⟨rfl, ?_, rfl⟩
  simp [releaseAgentLock, hmismatch]

/-- Witness for C9 with a concrete stale token. -/
theorem lock_busy_and_release_witness :
    (some "tokA" : Option String) ≠ some "tokB" ∧
    (acquireAgentLock (some "tokA") "tokC" = (some "tokA", none) ∧
     releaseAgentLock (some "tokA") "tokB" = some "tokA" ∧
     runAgentLanggraph (some "tokA") "tokC" "resposta"
       = ({ output := busyMessage, error := some "busy", processedTurn := false },
          some "tokA")) :=
  ⟨by decide,
   lock_busy_and_release "tokA" "tokC" "tokB" "resposta" (some "tokA") (by decide)⟩

/-! ## C4: buffer push return value -/

/-- C4 counterexample: pushing onto an already non-empty buffer still
returns true, so the return value is not "true only for the first fragment
since the buffer was last empty". -/
theorem push_second_fragment_still_true :
    ([Fragment.mk "oi" none] : List Fragment) ≠ [] ∧
    (pushMessageToBuffer [Fragment.mk "oi" none] (Fragment.mk "tudo bem?" none) true).2
      = true := by
  constructor
  · decide
  · rfl

/-- C4 amended: `push_message_to_buffer` appends the fragment and returns
true whenever the append succeeds, regardless of whether the buffer was
empty; the only-first-fragment scheduling decision is made by the webhook
through the in-process buffer-session flag: a consolidation job is enqueued
exactly when the flag is unset, and later fragments only extend the buffer. -/
theorem push_appends_and_webhook_schedules (buf : List Fragment) (frag : Fragment) :
    pushMessageToBuffer buf frag true = (buf ++ [frag], true) ∧
    (webhookBufferStep buf false frag true).scheduledConsolidation = true ∧
    (webhookBufferStep buf false frag true).bufferSessionFlag = true ∧
    (webhookBufferStep buf true frag true).scheduledConsolidation = false ∧
    (webhookBufferStep buf true frag true).buffer = buf ++ [frag] := by
  refine ⟨rfl, ?_, ?_, ?_, ?_⟩ <;> simp [webhookBufferStep, pushMessageToBuffer]

/-! ## C5: greeting reopen while `sent` -/

/-- C5 counterexample: with a `sent` session, a pending receipt and the
greeting "bom dia", `get_order_context` leaves the pending receipt in place,
so the claim that the pending receipt is cleared is false at this input. -/
theorem greeting_reopen_keeps_receipt :
    stSent.session.map Session.status = some SessStatus.sent ∧
    isGreeting "bom dia" = true ∧
    (getOrderContext stSent 99 "bom dia").state.comprovante
      = some "https://files.example/comp.jpg" ∧
    (getOrderContext stSent 99 "bom dia").state.comprovante ≠ none := by
  refine ⟨rfl, by decide, rfl, by decide⟩

/-- C5 amended: for a customer whose session is `sent`, a greeting-like next
message makes `get_order_context` clear the old session and the cart and
start a new `building` session; the pending receipt (comprovante) is not
cleared and is left to expire by TTL. -/
theorem greeting_reopen (st : CustState) (now : Nat) (msg : String) (s : Session)
    (hs : st.session = some s) (hsent : s.status = SessStatus.sent)
    (hg : isGreeting msg = true) :
    getOrderContext st now msg =
      { state := { st with session := some (freshSession now), cart := [] },
        context := "[SESSÃO] Novo pedido iniciado. Cliente iniciou nova conversa com saudação." } := by
  simp [getOrderContext, hs, hsent, hg]

/-- Witness for C5 at a concrete `sent` state and the greeting "bom dia". -/
theorem greeting_reopen_witness :
    stSent.session = some { status := SessStatus.sent, startedAt := some 0,
                            sentAt := some 10, orderId := some "42" } ∧
    ({ status := SessStatus.sent, startedAt := some 0,
       sentAt := some 10, orderId := some "42" } : Session).status = SessStatus.sent ∧
    isGreeting "bom dia" = true ∧
    getOrderContext stSent 7 "bom dia" =
      { state := { stSent with session := some (freshSession 7), cart := [] },
        context := "[SESSÃO] Novo pedido iniciado. Cliente iniciou nova conversa com saudação." } :=
  ⟨rfl, rfl, by decide,
   greeting_reopen stSent 7 "bom dia" _ rfl rfl (by decide)⟩

/-! ## C1: resync-on-sent for add and remove -/

/-- C1: with a `sent` session, every `add_item_to_cart` call and every
successful index-removal issues exactly one `overwrite_order` call whose
payload is the entire post-mutation cart (the full list read back after the
mutation), and the outcome of that external call does not roll back or alter
the local cart. -/
theorem resync_on_sent (st : CustState) (now : Nat) (item : CartItem) (i : Int)
    (hsent : st.session.map Session.status = some SessStatus.sent)
    (h0 : 0 ≤ i) (hn : i < (st.cart.length : Int)) :
    (∀ ok : Bool, (addItemToCart st now item ok).overwriteCalls
        = [(addItemToCart st now item ok).state.cart]) ∧
    (∀ ok ok2 : Bool, addItemToCart st now item ok = addItemToCart st now item ok2) ∧
    (∀ ok : Bool, (removeItemFromCart st i ok).ok = true) ∧
    (∀ ok : Bool, (removeItemFromCart st i ok).overwriteCalls
        = [(removeItemFromCart st i ok).state.cart]) ∧
    (∀ ok ok2 : Bool, removeItemFromCart st i ok = removeItemFromCart st i ok2) := by
  refine ⟨?_, fun ok ok2 => rfl, ?_, ?_, fun ok ok2 => rfl⟩
  · intro ok
    simp [addItemToCart, hsent]
  · intro ok
    simp [removeItemFromCart, h0, hn]
  · intro ok
    simp [removeItemFromCart, h0, hn, hsent]

/-- Witness for C1 at a concrete `sent` state, item and index. -/
theorem resync_on_sent_witness :
    stSent.session.map Session.status = some SessStatus.sent ∧
    (0 : Int) ≤ 0 ∧ (0 : Int) < (stSent.cart.length : Int) ∧
    ((∀ ok : Bool, (addItemToCart stSent 3 itemCafe ok).overwriteCalls
        = [(addItemToCart stSent 3 itemCafe ok).state.cart]) ∧
     (∀ ok ok2 : Bool, addItemToCart stSent 3 itemCafe ok
        = addItemToCart stSent 3 itemCafe ok2) ∧
     (∀ ok : Bool, (removeItemFromCart stSent 0 ok).ok = true) ∧
     (∀ ok : Bool, (removeItemFromCart stSent 0 ok).overwriteCalls
        = [(removeItemFromCart stSent 0 ok).state.cart]) ∧
     (∀ ok ok2 : Bool, removeItemFromCart stSent 0 ok = removeItemFromCart stSent 0 ok2)) :=
  ⟨rfl, by decide, by decide,
   resync_on_sent stSent 3 itemCafe 0 rfl (by decide) (by decide)⟩

/-! ## C2: merge-on-duplicate-name -/

/-- The `LSET` helper acts pointwise: replacing position `pre.length` of
`pre ++ old :: post` merges `old` and leaves everything else in place. -/
theorem mergeIntoCart_split (pre post : List CartItem) (old n : CartItem) :
    mergeIntoCart (pre ++ old :: post) pre.length n = pre ++ mergeItems old n :: post := by
  induction pre with
  | nil => rfl
  | cons x xs ih => simp [mergeIntoCart, ih]

/-- C2: adding a product whose normalized name matches an existing cart item
merges in place — same number of items, quantity summed, unit counts summed
when both present, price overwritten with the newly supplied one, a distinct
new note concatenated onto the old note — while a product matching no
existing item is appended, so two adds with different names yield two items. -/
theorem add_merge_or_append (st : CustState) (now : Nat) (ok : Bool)
    (newI old : CartItem) (pre post : List CartItem)
    (hsplit : st.cart = pre ++ old :: post)
    (hfind : findMatchIdx st.cart (normName newI.produto) = some pre.length) :
    ((addItemToCart st now newI ok).state.cart = pre ++ mergeItems old newI :: post ∧
     (addItemToCart st now newI ok).state.cart.length = st.cart.length ∧
     (mergeItems old newI).quantidade = old.quantidade + newI.quantidade ∧
     (∀ a b : Int, old.unidades = some a → newI.unidades = some b →
        (mergeItems old newI).unidades = some (a + b)) ∧
     (∀ p : ℚ, newI.preco = some p → (mergeItems old newI).preco = some p) ∧
     (newI.observacao ≠ "" → strContains old.observacao newI.observacao = false →
        (mergeItems old newI).observacao
          = String.mk (trimChars (old.observacao ++ " " ++ newI.observacao).data))) ∧
    (∀ (st2 : CustState) (n2 : CartItem),
        findMatchIdx st2.cart (normName n2.produto) = none →
        (addItemToCart st2 now n2 ok).state.cart = st2.cart ++ [n2]) ∧
    (∀ a b : CartItem, normName a.produto ≠ normName b.produto →
        (addItemToCart (addItemToCart stEmpty now a ok).state now b ok).state.cart
          = [a, b]) := by
  refine ⟨⟨?_, ?_, rfl, ?_, ?_, ?_⟩, ?_, ?_⟩
  · simp only [addItemToCart, hfind]
    rw [hsplit, mergeIntoCart_split]
  · simp only [addItemToCart, hfind]
    rw [hsplit, mergeIntoCart_split]
    simp
  · intro a b ha hb
    simp [mergeItems, ha, hb]
  · intro p hp
    simp [mergeItems, hp]
  · intro h1 h2
    simp [mergeItems, h1, h2]
  · intro st2 n2 hn
    simp [addItemToCart, hn]
  · intro a b hab
    have hnil : findMatchIdx stEmpty.cart (normName a.produto) = none := rfl
    have hba : (normName a.produto == normName b.produto) = false :=
      beq_eq_false_iff_ne.mpr fun h => hab h
    have h2 : findMatchIdx [a] (normName b.produto) = none := by
      simp [findMatchIdx, List.findIdx?, hba]
    simp [addItemToCart, stEmpty, hnil, h2, findMatchIdx, hab]

/-- Witness for C2: merging "  ARROZ " (note, new price) into a cart holding
"Arroz". -/
theorem add_merge_or_append_witness :
    stSent.cart = [] ++ itemArroz :: [itemFeijao, itemCafe] ∧
    findMatchIdx stSent.cart
        (normName itemArrozNovo.produto) = some ([] : List CartItem).length ∧
    (((addItemToCart stSent 3 itemArrozNovo true).state.cart
        = [] ++ mergeItems itemArroz itemArrozNovo :: [itemFeijao, itemCafe] ∧
      (addItemToCart stSent 3 itemArrozNovo true).state.cart.length
        = stSent.cart.length ∧
      (mergeItems itemArroz itemArrozNovo).quantidade
        = itemArroz.quantidade + itemArrozNovo.quantidade ∧
      (∀ a b : Int, itemArroz.unidades = some a → itemArrozNovo.unidades = some b →
        (mergeItems itemArroz itemArrozNovo).unidades = some (a + b)) ∧
      (∀ p : ℚ, itemArrozNovo.preco = some p →
        (mergeItems itemArroz itemArrozNovo).preco = some p) ∧
      (itemArrozNovo.observacao ≠ "" →
        strContains itemArroz.observacao itemArrozNovo.observacao = false →
        (mergeItems itemArroz itemArrozNovo).observacao
          = String.mk (trimChars
              (itemArroz.observacao ++ " " ++ itemArrozNovo.observacao).data))) ∧
     (∀ (st2 : CustState) (n2 : CartItem),
        findMatchIdx st2.cart (normName n2.produto) = none →
        (addItemToCart st2 3 n2 true).state.cart = st2.cart ++ [n2]) ∧
     (∀ a b : CartItem, normName a.produto ≠ normName b.produto →
        (addItemToCart (addItemToCart stEmpty 3 a true).state 3 b true).state.cart
          = [a, b])) :=
  ⟨rfl, by decide,
   add_merge_or_append stSent 3 true itemArrozNovo
     itemArroz [] [itemFeijao, itemCafe] rfl (by decide)⟩

/-! ## C3 / C8: circuit breaker -/

/-- Failures reported while the counter key is alive and below the threshold
just accumulate: the count rises by one per call, the window expiry and the
(closed) open flag stay put. -/
theorem reportFailures_accum (rest : List Nat) (c e threshold cooldown : Nat)
    (hwin : ∀ t ∈ rest, t < e) (hc : c + rest.length < threshold) :
    reportFailures rest threshold cooldown ⟨some (c, e), none⟩
      = ⟨some (c + rest.length, e), none⟩ := by
  induction rest generalizing c with
  | nil => simp [reportFailures]
  | cons t ts ih =>
    have ht : t < e := hwin t (List.mem_cons_self t ts)
    have hlt : ¬ threshold ≤ c + 1 := by
      simp only [List.length_cons] at hc
      omega
    have hstep : reportFailure ⟨some (c, e), none⟩ t threshold cooldown
        = ⟨some (c + 1, e), none⟩ := by
      simp [reportFailure, ht, hlt]
    have hrec := ih (c + 1) (fun x hx => hwin x (List.mem_cons_of_mem t hx))
      (by simp only [List.length_cons] at hc; omega)
    have hfold : reportFailures (t :: ts) threshold cooldown ⟨some (c, e), none⟩
        = reportFailures ts threshold cooldown
            (reportFailure ⟨some (c, e), none⟩ t threshold cooldown) := rfl
    rw [hfold, hstep, hrec]
    have : c + 1 + ts.length = c + (ts.length + 1) := by omega
    simp [this]

/-- C3: starting from a clean breaker, `threshold` failures reported inside
the 60-second window opened by the first one trip the circuit: after the
first `threshold - 1` failures `check_circuit_open` is still false; the
`threshold`-th sets the open flag for `cooldown` seconds and deletes the
failure counter; while the flag is alive the check returns true whatever the
failure counter holds, and once `cooldown` seconds have elapsed it returns
false again with no explicit reset. -/
theorem circuit_breaker_threshold (t1 tN : Nat) (mid : List Nat)
    (threshold cooldown : Nat)
    (hthr : threshold = mid.length + 2)
    (hwin : ∀ t ∈ mid, t < t1 + 60) (hwinN : tN < t1 + 60) :
    (∀ t, checkCircuitOpen
        (reportFailures (t1 :: mid) threshold cooldown ⟨none, none⟩) t = false) ∧
    (reportFailures (t1 :: mid ++ [tN]) threshold cooldown ⟨none, none⟩).failures
      = none ∧
    (reportFailures (t1 :: mid ++ [tN]) threshold cooldown ⟨none, none⟩).openUntil
      = some (tN + cooldown) ∧
    (∀ t f, t < tN + cooldown →
        checkCircuitOpen
          ⟨f, (reportFailures (t1 :: mid ++ [tN]) threshold cooldown
                ⟨none, none⟩).openUntil⟩ t = true) ∧
    (∀ t, tN + cooldown ≤ t →
        checkCircuitOpen
          (reportFailures (t1 :: mid ++ [tN]) threshold cooldown ⟨none, none⟩) t
          = false) := by
  have hfirst : reportFailure ⟨none, none⟩ t1 threshold cooldown
      = ⟨some (1, t1 + 60), none⟩ := by
    have : ¬ threshold ≤ 1 := by omega
    simp [reportFailure, this]
  have hmid : reportFailures (t1 :: mid) threshold cooldown ⟨none, none⟩
      = ⟨some (1 + mid.length, t1 + 60), none⟩ := by
    have hfold : reportFailures (t1 :: mid) threshold cooldown ⟨none, none⟩
        = reportFailures mid threshold cooldown
            (reportFailure ⟨none, none⟩ t1 threshold cooldown) := rfl
    rw [hfold, hfirst, reportFailures_accum mid 1 (t1 + 60) threshold cooldown hwin
      (by omega)]
  have hfull : reportFailures (t1 :: mid ++ [tN]) threshold cooldown ⟨none, none⟩
      = reportFailure (reportFailures (t1 :: mid) threshold cooldown ⟨none, none⟩)
          tN threshold cooldown := by
    show List.foldl (fun s t => reportFailure s t threshold cooldown) ⟨none, none⟩
        ((t1 :: mid) ++ [tN]) = _
    rw [List.foldl_append]
    rfl
  have hlast : reportFailure ⟨some (1 + mid.length, t1 + 60), none⟩ tN
      threshold cooldown = ⟨none, some (tN + cooldown)⟩ := by
    have hge : threshold ≤ 1 + mid.length + 1 := by omega
    simp [reportFailure, hwinN, hge]
  refine ⟨?_, ?_, ?_, ?_, ?_⟩
  · intro t
    rw [hmid]
    simp [checkCircuitOpen]
  · rw [hfull, hmid, hlast]
  · rw [hfull, hmid, hlast]
  · intro t f ht
    rw [hfull, hmid, hlast]
    simp [checkCircuitOpen, ht]
  · intro t ht
    rw [hfull, hmid, hlast]
    simp [checkCircuitOpen]
    omega

/-- Witness for C3 with the default threshold 5 and cooldown 60, failures at
instants 0,1,2,3,4. -/
theorem circuit_breaker_threshold_witness :
    (5 : Nat) = [1, 2, 3].length + 2 ∧
    (∀ t ∈ [1, 2, 3], t < 0 + 60) ∧ 4 < 0 + 60 ∧
    ((∀ t, checkCircuitOpen
        (reportFailures (0 :: [1, 2, 3]) 5 60 ⟨none, none⟩) t = false) ∧
     (reportFailures (0 :: [1, 2, 3] ++ [4]) 5 60 ⟨none, none⟩).failures = none ∧
     (reportFailures (0 :: [1, 2, 3] ++ [4]) 5 60 ⟨none, none⟩).openUntil
       = some (4 + 60) ∧
     (∀ t f, t < 4 + 60 →
        checkCircuitOpen
          ⟨f, (reportFailures (0 :: [1, 2, 3] ++ [4]) 5 60 ⟨none, none⟩).openUntil⟩ t
          = true) ∧
     (∀ t, 4 + 60 ≤ t →
        checkCircuitOpen (reportFailures (0 :: [1, 2, 3] ++ [4]) 5 60 ⟨none, none⟩) t
          = false)) :=
  ⟨by decide, by decide, by decide,
   circuit_breaker_threshold 0 4 [1, 2, 3] 5 60 (by decide) (by decide) (by decide)⟩

/-- C8: one `report_success` wipes the failure counter — the observable
count becomes 0 from that instant on and the next `report_failure` starts a
fresh window counting from 1, not from N+1 — while the open flag is left
exactly as it was (a success never closes an already-open circuit). -/
theorem circuit_breaker_recovery (st : CircuitState) (now t2 threshold cooldown : Nat)
    (hth : 2 ≤ threshold) (hord : now ≤ t2) :
    (reportSuccess st now).openUntil = st.openUntil ∧
    (∀ t, now ≤ t → failCount (reportSuccess st now) t = 0) ∧
    (reportFailure (reportSuccess st now) t2 threshold cooldown).failures
      = some (1, t2 + 60) ∧
    (reportFailure (reportSuccess st now) t2 threshold cooldown).openUntil
      = st.openUntil := by
  have hle1 : ¬ threshold ≤ 1 := by omega
  rcases st with ⟨f, o⟩
  rcases f with _ | ⟨c, e⟩
  · refine ⟨rfl, fun t ht => rfl, ?_, ?_⟩ <;> simp [reportSuccess, reportFailure, hle1]
  · by_cases halive : now < e
    · refine ⟨?_, ?_, ?_, ?_⟩ <;>
        simp [reportSuccess, reportFailure, failCount, halive, hle1]
    · have hexp : e ≤ now := by omega
      refine ⟨?_, ?_, ?_, ?_⟩
      · simp [reportSuccess, halive]
      · intro t ht
        have : ¬ t < e := by omega
        simp [reportSuccess, failCount, halive, this]
      · have : ¬ t2 < e := by omega
        simp [reportSuccess, reportFailure, halive, this, hle1]
      · have : ¬ t2 < e := by omega
        simp [reportSuccess, reportFailure, halive, this, hle1]

/-- Witness for C8: success at instant 50 on a breaker with 3 recent
failures and an open flag until instant 500. -/
theorem circuit_breaker_recovery_witness :
    (2 : Nat) ≤ 5 ∧ (50 : Nat) ≤ 55 ∧
    ((reportSuccess ⟨some (3, 100), some 500⟩ 50).openUntil = some 500 ∧
     (∀ t, 50 ≤ t → failCount (reportSuccess ⟨some (3, 100), some 500⟩ 50) t = 0) ∧
     (reportFailure (reportSuccess ⟨some (3, 100), some 500⟩ 50) 55 5 60).failures
       = some (1, 55 + 60) ∧
     (reportFailure (reportSuccess ⟨some (3, 100), some 500⟩ 50) 55 5 60).openUntil
       = some 500) :=
  ⟨by decide, by decide,
   circuit_breaker_recovery ⟨some (3, 100), some 500⟩ 50 55 5 60 (by decide) (by decide)⟩

/-! ## C6: hallucination retry bound -/

/-- The fixed vendedor fallback text itself never trips the vendedor
verifier, whatever tools were called. -/
theorem vendedorFallback_clean (tools : List String) :
    checkHallucination ⟨vendedorFallback, tools⟩ = false := by
  have h1 : listContainsSub (lowerChars vendedorFallback.data) "adicionei".data
      = false := by decide
  have h2 : listContainsSub (lowerChars vendedorFallback.data) "adicionado".data
      = false := by decide
  have h3 : listContainsSub (lowerChars vendedorFallback.data) "encontrei".data
      = false := by decide
  simp [checkHallucination, h1, h2, h3]

/-- The fixed caixa fallback text itself never trips the cashier verifier,
whatever tools were called. -/
theorem caixaFallback_clean (tools : List String) :
    checkCaixaHallucination ⟨caixaFallback, tools⟩ = false := by
  have h1 : (caixaConfirmWords.any fun w =>
      listContainsSub (lowerChars caixaFallback.data) w.data) = false := by decide
  have h2 : hasTotalPattern (lowerChars caixaFallback.data) = false := by decide
  simp [checkCaixaHallucination, h1, h2]

/-- C6: when the verifier flags both the original attempt and the single
corrective retry, each responder node returns the fixed fallback text after
exactly two responder invocations (never a third), and neither flagged
response text is what gets forwarded. -/
theorem hallucination_retry_bound (a1 a2 b1 b2 : AgentAttempt)
    (h1 : checkHallucination a1 = true) (h2 : checkHallucination a2 = true)
    (h3 : checkCaixaHallucination b1 = true) (h4 : checkCaixaHallucination b2 = true) :
    vendedorNode a1 a2 = ⟨vendedorFallback, 2⟩ ∧
    caixaNode b1 b2 = ⟨caixaFallback, 2⟩ ∧
    a1.response ≠ vendedorFallback ∧ a2.response ≠ vendedorFallback ∧
    b1.response ≠ caixaFallback ∧ b2.response ≠ caixaFallback := by
  have hnev : ∀ a : AgentAttempt, checkHallucination a = true →
      a.response ≠ vendedorFallback := by
    intro a ha he
    have hax : checkHallucination ⟨a.response, a.toolsCalled⟩ = true := ha
    rw [he, vendedorFallback_clean] at hax
    simp at hax
  have hnec : ∀ b : AgentAttempt, checkCaixaHallucination b = true →
      b.response ≠ caixaFallback := by
    intro b hb he
    have hbx : checkCaixaHallucination ⟨b.response, b.toolsCalled⟩ = true := hb
    rw [he, caixaFallback_clean] at hbx
    simp at hbx
  refine ⟨?_, ?_, hnev a1 h1, hnev a2 h2, hnec b1 h3, hnec b2 h4⟩
  · simp [vendedorNode, h1, h2]
  · simp [caixaNode, h3, h4]

/-- Witness for C6 with concretely flagged attempts of both responders. -/
theorem hallucination_retry_bound_witness :
    checkHallucination (AgentAttempt.mk "Adicionei o arroz no seu pedido." []) = true ∧
    checkHallucination (AgentAttempt.mk "Pronto, item adicionado!" ["estoque_tool"]) = true ∧
    checkCaixaHallucination (AgentAttempt.mk "Pedido confirmado! Obrigado." []) = true ∧
    checkCaixaHallucination (AgentAttempt.mk "Seu total: R$ 25,00." []) = true ∧
    (vendedorNode (AgentAttempt.mk "Adicionei o arroz no seu pedido." [])
        (AgentAttempt.mk "Pronto, item adicionado!" ["estoque_tool"])
      = ⟨vendedorFallback, 2⟩ ∧
     caixaNode (AgentAttempt.mk "Pedido confirmado! Obrigado." [])
        (AgentAttempt.mk "Seu total: R$ 25,00." [])
      = ⟨caixaFallback, 2⟩ ∧
     (AgentAttempt.mk "Adicionei o arroz no seu pedido." []).response ≠ vendedorFallback ∧
     (AgentAttempt.mk "Pronto, item adicionado!" ["estoque_tool"]).response ≠ vendedorFallback ∧
     (AgentAttempt.mk "Pedido confirmado! Obrigado." []).response ≠ caixaFallback ∧
     (AgentAttempt.mk "Seu total: R$ 25,00." []).response ≠ caixaFallback) :=
  ⟨by decide, by decide, by decide, by decide,
   hallucination_retry_bound
     (AgentAttempt.mk "Adicionei o arroz no seu pedido." [])
     (AgentAttempt.mk "Pronto, item adicionado!" ["estoque_tool"])
     (AgentAttempt.mk "Pedido confirmado! Obrigado." [])
     (AgentAttempt.mk "Seu total: R$ 25,00." [])
     (by decide) (by decide) (by decide) (by decide)⟩

end AgntCerto
